import Mathlib

/-!
# Verification of the `FastVGICPCuda` registration adapter

Shallow embedding of `src/include/fast_gicp/gicp/impl/fast_vgicp_cuda_impl.hpp`
(the CUDA-backed voxelized-GICP registration adapter of fast_gicp).

The adapter is a thin state machine: it owns a backend engine
(`FastVGICPCudaCore`), two cloud pointers inherited from the registration base
class (`input_`, `target_`), and configuration fields.  Every public operation
is embedded as a pure function from adapter state to adapter state, paired
with the list of backend operations it performs (its event trace), mirroring
the sequence of calls in the C++ body.

Point coordinates are modelled over `Int` (the claims under study concern
state-machine structure, slot layouts and determinism, none of which depend on
floating-point rounding).  Cloud pointers are modelled as an identity tag plus
content, so that the adapter's `cloud == input_` shared-pointer identity check
becomes a tag comparison.

Code of the repository that is not under `src/` (the backend engine's kernels,
the pcl kd-tree, the base-class setters and optimization loop) is modelled
from the spec; each such definition carries a doc comment saying so.
-/

/-- A 3D point with integer coordinates (model of a pcl point's xyz map). -/
structure Pt where
  x : Int
  y : Int
  z : Int
deriving DecidableEq, Repr

/-- Squared Euclidean distance between two points. -/
def sqDist (p q : Pt) : Int :=
  (p.x - q.x) ^ 2 + (p.y - q.y) ^ 2 + (p.z - q.z) ^ 2

/-- Insert an element into a list so that elements on which `le` holds stay in
front (helper for the stable sort used to model the kd-tree query). -/
def insertBy (le : α → α → Bool) (a : α) : List α → List α
  | [] => [a]
  | b :: bs => if le a b then a :: b :: bs else b :: insertBy le a bs

/-- Stable insertion sort by a boolean comparison. -/
def sortBy (le : α → α → Bool) : List α → List α
  | [] => []
  | a :: as => insertBy le a (sortBy le as)

/-- Modelled from the spec: the pcl kd-tree `nearestKSearch` capability, which
is out of scope for the core ("core only needs a k nearest neighbor indices
for a query point capability").  Exact k-nearest-neighbor query over the
indexed cloud: indices of all points sorted by squared distance to the query
(ties broken by index, making the model deterministic as the spec requires),
truncated to `k`.  It returns `min k n` indices when the cloud has `n`
points.  -/
def nearestKSearch (pts : List Pt) (q : Pt) (k : Nat) : List Nat :=
  ((sortBy (fun a b => a.1 < b.1 || (a.1 == b.1 && a.2 ≤ b.2))
      ((List.range pts.length).map
        (fun i => (sqDist (pts.getD i ⟨0, 0, 0⟩) q, i)))).take k).map Prod.snd

/-- The k-nearest-neighbor indices of query point `i` of `pts` against `pts`
itself (the self-cloud query performed by `find_neighbors_parallel_kdtree`). -/
def knnOf (pts : List Pt) (k i : Nat) : List Nat :=
  nearestKSearch pts (pts.getD i ⟨0, 0, 0⟩) k

/-- One loop iteration of `find_neighbors_parallel_kdtree`: copy the query
results `vals` of query `i` into the output buffer starting at position
`i * k` (`std::copy(k_indices.begin(), k_indices.end(), neighbors.begin() + i * k)`).
The buffer is modelled as a map from position to value.  -/
def writeSlot (k : Nat) (vals : List Nat) (i : Nat) (buf : Nat → Nat) : Nat → Nat :=
  fun j => if i * k ≤ j ∧ j < i * k + vals.length then vals.getD (j - i * k) 0 else buf j

/-- The buffer produced by running the (parallel) query loop of
`find_neighbors_parallel_kdtree` with the loop iterations executed in the
order given by `order`, starting from the zero-initialized buffer
(`std::vector<int> neighbors(cloud->size() * k)` value-initializes to 0). -/
def runQueriesFun (pts : List Pt) (k : Nat) (order : List Nat) : Nat → Nat :=
  order.foldl (fun buf i => writeSlot k (knnOf pts k i) i buf) (fun _ => 0)

/-- `FastVGICPCuda::find_neighbors_parallel_kdtree` (lines 122-138): build a
kd-tree over the cloud, allocate an `n * k` zero-initialized vector, and for
every query point `i` (an OpenMP-parallel loop) run `nearestKSearch` and copy
the returned indices into positions `i*k ..`.  The sequential materialization
uses the canonical iteration order `0, 1, ..., n-1`. -/
def find_neighbors_parallel_kdtree (k : Nat) (pts : List Pt) : List Nat :=
  (List.range (pts.length * k)).map (runQueriesFun pts k (List.range pts.length))

/-- Modelled from the spec: accelerator brute-force search, executed by the
backend (`find_source_neighbors` / `find_target_neighbors`, not under src/).
The spec states it "returns the same logical k-nearest result" as the exact
search; it fills exactly `k` slots per query in the same flat layout, padding
with 0 when the cloud holds fewer than `k` points. -/
def gpuBruteforceNeighbors (k : Nat) (pts : List Pt) : List Nat :=
  ((List.range pts.length).map (fun i =>
    let v := knnOf pts k i
    v ++ List.replicate (k - v.length) 0)).flatten

/-- A 3x3 matrix with integer entries (model of `Eigen::Matrix3f`). -/
structure Mat3 where
  m00 : Int
  m01 : Int
  m02 : Int
  m10 : Int
  m11 : Int
  m12 : Int
  m20 : Int
  m21 : Int
  m22 : Int
deriving DecidableEq, Repr

def Mat3.zero : Mat3 := ⟨0, 0, 0, 0, 0, 0, 0, 0, 0⟩

def Mat3.add (A B : Mat3) : Mat3 :=
  ⟨A.m00 + B.m00, A.m01 + B.m01, A.m02 + B.m02,
   A.m10 + B.m10, A.m11 + B.m11, A.m12 + B.m12,
   A.m20 + B.m20, A.m21 + B.m21, A.m22 + B.m22⟩

def Mat3.transpose (A : Mat3) : Mat3 :=
  ⟨A.m00, A.m10, A.m20, A.m01, A.m11, A.m21, A.m02, A.m12, A.m22⟩

def Mat3.mul (A B : Mat3) : Mat3 :=
  ⟨A.m00 * B.m00 + A.m01 * B.m10 + A.m02 * B.m20,
   A.m00 * B.m01 + A.m01 * B.m11 + A.m02 * B.m21,
   A.m00 * B.m02 + A.m01 * B.m12 + A.m02 * B.m22,
   A.m10 * B.m00 + A.m11 * B.m10 + A.m12 * B.m20,
   A.m10 * B.m01 + A.m11 * B.m11 + A.m12 * B.m21,
   A.m10 * B.m02 + A.m11 * B.m12 + A.m12 * B.m22,
   A.m20 * B.m00 + A.m21 * B.m10 + A.m22 * B.m20,
   A.m20 * B.m01 + A.m21 * B.m11 + A.m22 * B.m21,
   A.m20 * B.m02 + A.m21 * B.m12 + A.m22 * B.m22⟩

/-- Outer product `d * d^T` of a vector with itself. -/
def Mat3.outer (d : Pt) : Mat3 :=
  ⟨d.x * d.x, d.x * d.y, d.x * d.z,
   d.y * d.x, d.y * d.y, d.y * d.z,
   d.z * d.x, d.z * d.y, d.z * d.z⟩

def Mat3.apply (A : Mat3) (p : Pt) : Pt :=
  ⟨A.m00 * p.x + A.m01 * p.y + A.m02 * p.z,
   A.m10 * p.x + A.m11 * p.y + A.m12 * p.z,
   A.m20 * p.x + A.m21 * p.y + A.m22 * p.z⟩

def Pt.sub (p q : Pt) : Pt := ⟨p.x - q.x, p.y - q.y, p.z - q.z⟩

def Pt.add (p q : Pt) : Pt := ⟨p.x + q.x, p.y + q.y, p.z + q.z⟩

/-- A rigid transform candidate (model of `Eigen::Isometry3d`): a rotation
block and a translation. -/
structure Iso where
  rot : Mat3
  tra : Pt
deriving DecidableEq, Repr

def Iso.apply (T : Iso) (p : Pt) : Pt := Pt.add (T.rot.apply p) T.tra

/-- The covariance regularization methods of the configuration surface
(plane-assumption clamping, minimum-eigenvalue floor, normalized floor,
Frobenius-norm-preserving rescaling). -/
inductive RegularizationMethod where
  | PLANE
  | MIN_EIG
  | NORMALIZED_MIN_EIG
  | FROBENIUS
deriving DecidableEq, Repr

/-- The neighbor-search mode enum (`NearestNeighborMethod`). -/
inductive NearestNeighborMethod where
  | CPU_PARALLEL_KDTREE
  | GPU_BRUTEFORCE
deriving DecidableEq, Repr

/-- Scatter matrix of point `i`'s stored neighbors (flat neighbor list with
stride `k`) relative to point `i`. -/
def covOfPoint (pts : List Pt) (k : Nat) (nbrs : List Nat) (i : Nat) : Mat3 :=
  (List.range k).foldl
    (fun acc m =>
      let j := nbrs.getD (i * k + m) 0
      Mat3.add acc (Mat3.outer (Pt.sub (pts.getD j ⟨0, 0, 0⟩) (pts.getD i ⟨0, 0, 0⟩))))
    Mat3.zero

/-- Modelled from the spec: the backend covariance kernel
(`calculate_source_covariances` / `calculate_target_covariances`, not under
src/).  Per point it accumulates the scatter of the k stored neighbors
(§4.1); the eigenvalue-clamping regularization step is a floating-point
eigendecomposition outside an integer model, and no claim under study
depends on the matrix values, so the accumulated scatter is returned as is
and the selected method only selects the (abstracted) clamp. -/
def calcCovariances (reg : RegularizationMethod) (k : Nat) (pts : List Pt)
    (nbrs : List Nat) : List Mat3 :=
  let _ := reg
  (List.range pts.length).map (covOfPoint pts k nbrs)

/-- Integer voxel coordinate of a point at a given resolution (divide each
coordinate by the resolution and floor — spec §3, Voxel Map). -/
def voxelOf (res : Int) (p : Pt) : Int × Int × Int :=
  (Int.fdiv p.x res, Int.fdiv p.y res, Int.fdiv p.z res)

/-- Modelled from the spec: the voxel map built by the backend
(`create_target_voxelmap`, not under src/): every target point index hashed
to its voxel coordinate. -/
def buildVoxelmap (res : Int) (pts : List Pt) : List ((Int × Int × Int) × Nat) :=
  (List.range pts.length).map (fun i => (voxelOf res (pts.getD i ⟨0, 0, 0⟩), i))

/-- Whether two voxel coordinates are equal or immediately adjacent
(the `lookupNear` neighborhood of spec §4.3). -/
def voxelNear (a b : Int × Int × Int) : Bool :=
  (a.1 - b.1).natAbs ≤ 1 && (a.2.1 - b.2.1).natAbs ≤ 1 && (a.2.2 - b.2.2).natAbs ≤ 1

/-- A point cloud behind a shared pointer: an identity tag (the pointer) plus
the point contents.  Two variables compare equal under the adapter's
`cloud == input_` check exactly when their tags agree. -/
structure Cloud where
  id : Nat
  pts : List Pt
deriving DecidableEq, Repr

/-- One backend/base-class operation performed by an adapter call; adapter
operations return the list of these they performed, in order. -/
inductive Event where
  | baseSetInputSource
  | baseSetInputTarget
  | extractCoords
  | setSourceCloud
  | setTargetCloud
  | cpuSearchSource
  | cpuSearchTarget
  | gpuSearchSource
  | gpuSearchTarget
  | calcSourceCovs
  | calcTargetCovs
  | getSourceCovs
  | createTargetVoxelmap
  | swapBackend
  | setBackendConfig
  | updCorrespondences
  | updMahalanobis
  | evalError
deriving DecidableEq, Repr

/-- State of the backend engine (`FastVGICPCudaCore`, declared in
`fast_gicp/cuda/fast_vgicp_cuda.cuh`, outside src/): uploaded source/target
points, their flat neighbor lists with their stride, their covariances, the
target voxel map, the current correspondence/Mahalanobis buffers, and the
optimization configuration. -/
structure FastVGICPCudaCore where
  source_points : List Pt
  target_points : List Pt
  source_neighbors : Option (Nat × List Nat)
  target_neighbors : Option (Nat × List Nat)
  source_covs : List Mat3
  target_covs : List Mat3
  voxelmap : Option (List ((Int × Int × Int) × Nat))
  correspondences : Option (List (Option Nat))
  mahalanobis : Option (List Mat3)
  max_iterations : Nat
  rotation_epsilon : Int
  transformation_epsilon : Int
  resolution : Int
deriving DecidableEq, Repr

/-- Modelled from the spec: a freshly constructed backend engine
(`new FastVGICPCudaCore()`) holds no clouds and default configuration. -/
def FastVGICPCudaCore.init : FastVGICPCudaCore :=
  ⟨[], [], none, none, [], [], none, none, none, 64, 2, 1, 1⟩

def FastVGICPCudaCore.set_max_iterations (c : FastVGICPCudaCore) (n : Nat) :
    FastVGICPCudaCore := { c with max_iterations := n }

def FastVGICPCudaCore.set_rotation_epsilon (c : FastVGICPCudaCore) (e : Int) :
    FastVGICPCudaCore := { c with rotation_epsilon := e }

def FastVGICPCudaCore.set_transformation_epsilon (c : FastVGICPCudaCore) (e : Int) :
    FastVGICPCudaCore := { c with transformation_epsilon := e }

def FastVGICPCudaCore.set_resolution (c : FastVGICPCudaCore) (r : Int) :
    FastVGICPCudaCore := { c with resolution := r }

/-- Modelled from the spec: uploading the extracted source coordinates. -/
def FastVGICPCudaCore.set_source_cloud (c : FastVGICPCudaCore) (pts : List Pt) :
    FastVGICPCudaCore := { c with source_points := pts }

/-- Modelled from the spec: uploading the extracted target coordinates. -/
def FastVGICPCudaCore.set_target_cloud (c : FastVGICPCudaCore) (pts : List Pt) :
    FastVGICPCudaCore := { c with target_points := pts }

/-- Modelled from the spec: storing externally computed source neighbors. -/
def FastVGICPCudaCore.set_source_neighbors (c : FastVGICPCudaCore) (k : Nat)
    (nbrs : List Nat) : FastVGICPCudaCore :=
  { c with source_neighbors := some (k, nbrs) }

/-- Modelled from the spec: storing externally computed target neighbors. -/
def FastVGICPCudaCore.set_target_neighbors (c : FastVGICPCudaCore) (k : Nat)
    (nbrs : List Nat) : FastVGICPCudaCore :=
  { c with target_neighbors := some (k, nbrs) }

/-- Modelled from the spec: GPU brute-force neighbor search over the uploaded
source cloud. -/
def FastVGICPCudaCore.find_source_neighbors (c : FastVGICPCudaCore) (k : Nat) :
    FastVGICPCudaCore :=
  { c with source_neighbors := some (k, gpuBruteforceNeighbors k c.source_points) }

/-- Modelled from the spec: GPU brute-force neighbor search over the uploaded
target cloud. -/
def FastVGICPCudaCore.find_target_neighbors (c : FastVGICPCudaCore) (k : Nat) :
    FastVGICPCudaCore :=
  { c with target_neighbors := some (k, gpuBruteforceNeighbors k c.target_points) }

/-- Modelled from the spec: covariance kernel over the uploaded source cloud
and its stored neighbors. -/
def FastVGICPCudaCore.calculate_source_covariances (c : FastVGICPCudaCore)
    (reg : RegularizationMethod) : FastVGICPCudaCore :=
  { c with source_covs :=
      match c.source_neighbors with
      | some (k, nbrs) => calcCovariances reg k c.source_points nbrs
      | none => [] }

/-- Modelled from the spec: covariance kernel over the uploaded target cloud
and its stored neighbors. -/
def FastVGICPCudaCore.calculate_target_covariances (c : FastVGICPCudaCore)
    (reg : RegularizationMethod) : FastVGICPCudaCore :=
  { c with target_covs :=
      match c.target_neighbors with
      | some (k, nbrs) => calcCovariances reg k c.target_points nbrs
      | none => [] }

/-- Modelled from the spec: hash the uploaded target points into the voxel
map at the backend's current resolution. -/
def FastVGICPCudaCore.create_target_voxelmap (c : FastVGICPCudaCore) :
    FastVGICPCudaCore :=
  { c with voxelmap := some (buildVoxelmap c.resolution c.target_points) }

/-- Modelled from the spec: `swap_source_and_target` "exchanges roles without
recomputation when both sides already hold valid state", the backend
"swapping its own internal source/target state symmetrically": the
source/target buffers are exchanged; nothing is recomputed. -/
def FastVGICPCudaCore.swap_source_and_target (c : FastVGICPCudaCore) :
    FastVGICPCudaCore :=
  { c with
    source_points := c.target_points
    target_points := c.source_points
    source_neighbors := c.target_neighbors
    target_neighbors := c.source_neighbors
    source_covs := c.target_covs
    target_covs := c.source_covs }

def Pt.normSq (p : Pt) : Int := p.x ^ 2 + p.y ^ 2 + p.z ^ 2

/-- Closest candidate index by squared distance (ties broken by index). -/
def bestCandidate (q : Pt) (tgt : List Pt) (cands : List Nat) : Option Nat :=
  ((sortBy (fun a b => a.1 < b.1 || (a.1 == b.1 && a.2 ≤ b.2))
    (cands.map (fun j => (sqDist q (tgt.getD j ⟨0, 0, 0⟩), j)))).head?).map Prod.snd

/-- Modelled from the spec (§4.4 `updateCorrespondences`): transform every
source point by `T`, collect the target indices in the transformed point's
voxel and its immediate neighbors, and choose the closest (none when the
neighborhood is empty; the candidate metric is the point distance, the
covariance weighting of the choice being abstracted — no claim under study
depends on which candidate wins). -/
def corrOf (c : FastVGICPCudaCore) (T : Iso) : List (Option Nat) :=
  match c.voxelmap with
  | none => List.replicate c.source_points.length none
  | some vm =>
    (List.range c.source_points.length).map (fun i =>
      let q := T.apply (c.source_points.getD i ⟨0, 0, 0⟩)
      let vox := voxelOf c.resolution q
      bestCandidate q c.target_points ((vm.filter (fun e => voxelNear e.1 vox)).map Prod.snd))

/-- Modelled from the spec: `update_correspondences` replaces the whole
correspondence buffer with the one computed for `T`. -/
def FastVGICPCudaCore.update_correspondences (c : FastVGICPCudaCore) (T : Iso) :
    FastVGICPCudaCore :=
  { c with correspondences := some (corrOf c T) }

/-- The combined weighting matrix `R * Cs * R^T + Ct` of an active
correspondence (spec §4.4 `updateMahalanobis`; its inversion is abstracted). -/
def mahOf (c : FastVGICPCudaCore) (T : Iso) : List Mat3 :=
  match c.correspondences with
  | none => []
  | some corr =>
    (List.range c.source_points.length).map (fun i =>
      match corr.getD i none with
      | some j =>
          Mat3.add
            (Mat3.mul (Mat3.mul T.rot (c.source_covs.getD i Mat3.zero)) T.rot.transpose)
            (c.target_covs.getD j Mat3.zero)
      | none => Mat3.zero)

/-- Modelled from the spec: `update_mahalanobis` recomputes the combined
weighting matrices for the active correspondences. -/
def FastVGICPCudaCore.update_mahalanobis (c : FastVGICPCudaCore) (T : Iso) :
    FastVGICPCudaCore :=
  { c with mahalanobis := some (mahOf c T) }

/-- The three outputs of an error-computation call: scalar error, Hessian-like
accumulator, gradient-like accumulator. -/
structure LinearizationOut where
  error : Int
  hAcc : Mat3
  bAcc : Pt
deriving DecidableEq, Repr

/-- Modelled from the spec (§4.4 `computeError`): accumulate, over the active
correspondences only (unmatched source points are excluded, not defaulted),
the residual quadratic form, a second-moment accumulator and the residual
sum.  The inverse-covariance weighting and the rotational Jacobian block are
floating-point content outside the integer model and are abstracted (no
claim under study depends on the numeric values); the call returns its three
outputs and leaves the backend state untouched ("No side effects beyond
producing these three outputs"), matching its `const` signature. -/
def FastVGICPCudaCore.compute_error (c : FastVGICPCudaCore) (T : Iso) :
    LinearizationOut :=
  match c.correspondences with
  | none => ⟨0, Mat3.zero, ⟨0, 0, 0⟩⟩
  | some corr =>
    (List.range c.source_points.length).foldl
      (fun acc i =>
        match corr.getD i none with
        | some j =>
            let r := Pt.sub (T.apply (c.source_points.getD i ⟨0, 0, 0⟩))
                            (c.target_points.getD j ⟨0, 0, 0⟩)
            ⟨acc.error + r.normSq, acc.hAcc.add (Mat3.outer r), acc.bAcc.add r⟩
        | none => acc)
      ⟨0, Mat3.zero, ⟨0, 0, 0⟩⟩

/-- The registration adapter's state (`FastVGICPCuda`): the two cloud
pointers held by the pcl registration base class, the configuration fields,
and the owned backend engine. -/
structure FastVGICPCuda where
  input_ : Option Cloud
  target_ : Option Cloud
  neighbor_search_method_ : NearestNeighborMethod
  k_correspondences_ : Nat
  regularization_method_ : RegularizationMethod
  max_iterations_ : Nat
  rotation_epsilon_ : Int
  transformation_epsilon_ : Int
  voxel_resolution_ : Int
  vgicp_cuda : FastVGICPCudaCore
deriving DecidableEq, Repr

/-- The constructor `FastVGICPCuda()` (lines 22-32): selects
`CPU_PARALLEL_KDTREE`, allocates a fresh backend and copies the current
configuration into it.  The inherited default configuration values are not
under src/; representative defaults are used (no claim depends on them). -/
def FastVGICPCuda.construct : FastVGICPCuda :=
  { input_ := none
    target_ := none
    neighbor_search_method_ := NearestNeighborMethod.CPU_PARALLEL_KDTREE
    k_correspondences_ := 20
    regularization_method_ := RegularizationMethod.PLANE
    max_iterations_ := 64
    rotation_epsilon_ := 2
    transformation_epsilon_ := 1
    voxel_resolution_ := 1
    vgicp_cuda :=
      (((FastVGICPCudaCore.init.set_max_iterations 64).set_rotation_epsilon
        2).set_transformation_epsilon 1).set_resolution 1 }

/-- `setNearesetNeighborSearchMethod` (lines 37-40): record the mode.  The
body is a single field assignment; no backend call is made. -/
def FastVGICPCuda.setNearesetNeighborSearchMethod (s : FastVGICPCuda)
    (method : NearestNeighborMethod) : FastVGICPCuda × List Event :=
  ({ s with neighbor_search_method_ := method }, [])

/-- `swapSourceAndTarget` (lines 42-46): ask the backend to swap its
source/target state, then swap the two held cloud pointers. -/
def FastVGICPCuda.swapSourceAndTarget (s : FastVGICPCuda) :
    FastVGICPCuda × List Event :=
  ({ s with
      vgicp_cuda := s.vgicp_cuda.swap_source_and_target
      input_ := s.target_
      target_ := s.input_ },
   [Event.swapBackend])

/-- `clearSource` (lines 48-51): `input_.reset()`. -/
def FastVGICPCuda.clearSource (s : FastVGICPCuda) : FastVGICPCuda × List Event :=
  ({ s with input_ := none }, [])

/-- `clearTarget` (lines 53-56): `target_.reset()`. -/
def FastVGICPCuda.clearTarget (s : FastVGICPCuda) : FastVGICPCuda × List Event :=
  ({ s with target_ := none }, [])

/-- The shared-pointer identity check `cloud == input_` / `cloud == target_`:
true exactly when a cloud is held and its pointer tag equals the argument's. -/
def sameInstance (held : Option Cloud) (cloud : Cloud) : Bool :=
  match held with
  | some d => d.id == cloud.id
  | none => false

/-- `setInputSource` (lines 58-84): return immediately when the argument is
the held source instance; otherwise store the pointer (base-class
`setInputSource`), extract the coordinates, upload them, run the selected
neighbor search with the configured k, compute the source covariances, and
read them back. -/
def FastVGICPCuda.setInputSource (s : FastVGICPCuda) (cloud : Cloud) :
    FastVGICPCuda × List Event :=
  if sameInstance s.input_ cloud then (s, [])
  else
    let s1 := { s with input_ := some cloud }
    let points := cloud.pts.map (fun p => p)
    let core1 := s1.vgicp_cuda.set_source_cloud points
    let step :=
      match s.neighbor_search_method_ with
      | NearestNeighborMethod.CPU_PARALLEL_KDTREE =>
          (core1.set_source_neighbors s.k_correspondences_
            (find_neighbors_parallel_kdtree s.k_correspondences_ points),
           Event.cpuSearchSource)
      | NearestNeighborMethod.GPU_BRUTEFORCE =>
          (core1.find_source_neighbors s.k_correspondences_, Event.gpuSearchSource)
    let core3 := step.1.calculate_source_covariances s.regularization_method_
    ({ s1 with vgicp_cuda := core3 },
     [Event.baseSetInputSource, Event.extractCoords, Event.setSourceCloud,
      step.2, Event.calcSourceCovs, Event.getSourceCovs])

/-- `setInputTarget` (lines 86-110): the target-side counterpart of
`setInputSource`, additionally rebuilding the target voxel map as its last
step. -/
def FastVGICPCuda.setInputTarget (s : FastVGICPCuda) (cloud : Cloud) :
    FastVGICPCuda × List Event :=
  if sameInstance s.target_ cloud then (s, [])
  else
    let s1 := { s with target_ := some cloud }
    let points := cloud.pts.map (fun p => p)
    let core1 := s1.vgicp_cuda.set_target_cloud points
    let step :=
      match s.neighbor_search_method_ with
      | NearestNeighborMethod.CPU_PARALLEL_KDTREE =>
          (core1.set_target_neighbors s.k_correspondences_
            (find_neighbors_parallel_kdtree s.k_correspondences_ points),
           Event.cpuSearchTarget)
      | NearestNeighborMethod.GPU_BRUTEFORCE =>
          (core1.find_target_neighbors s.k_correspondences_, Event.gpuSearchTarget)
    let core3 := step.1.calculate_target_covariances s.regularization_method_
    let core4 := core3.create_target_voxelmap
    ({ s1 with vgicp_cuda := core4 },
     [Event.baseSetInputTarget, Event.extractCoords, Event.setTargetCloud,
      step.2, Event.calcTargetCovs, Event.createTargetVoxelmap])

/-- `update_correspondences` (lines 140-143): forward to the backend. -/
def FastVGICPCuda.update_correspondences (s : FastVGICPCuda) (trans : Iso) :
    FastVGICPCuda × List Event :=
  ({ s with vgicp_cuda := s.vgicp_cuda.update_correspondences trans },
   [Event.updCorrespondences])

/-- `update_mahalanobis` (lines 145-148): forward to the backend. -/
def FastVGICPCuda.update_mahalanobis (s : FastVGICPCuda) (trans : Iso) :
    FastVGICPCuda × List Event :=
  ({ s with vgicp_cuda := s.vgicp_cuda.update_mahalanobis trans },
   [Event.updMahalanobis])

/-- `compute_error` (lines 150-153): a `const` member that returns the
backend's error/Hessian/gradient for `trans`; the adapter state is passed
through unchanged. -/
def FastVGICPCuda.compute_error (s : FastVGICPCuda) (trans : Iso) :
    (LinearizationOut × FastVGICPCuda) × List Event :=
  ((s.vgicp_cuda.compute_error trans, s), [Event.evalError])

/-- Modelled from the spec: the base-class optimization loop
(`FastGICP::computeTransformation`, not under src/).  Per iteration the outer
solver invokes exactly `updateCorrespondences(T)`, `updateMahalanobis(T)`,
`computeError(T)` in that order (§6) and applies the returned linearization
to update `T`; the linear-solve-and-converge step itself is the external
collaborator and is taken as a parameter `step`.  The loop runs up to the
adapter's iteration budget. -/
def baseComputeTransformation (step : LinearizationOut → Iso → Iso)
    (s : FastVGICPCuda) (guess : Iso) : (FastVGICPCuda × Iso) × List Event :=
  (List.range s.max_iterations_).foldl
    (fun acc _ =>
      let st := acc.1.1
      let T := acc.1.2
      let c1 := st.vgicp_cuda.update_correspondences T
      let c2 := c1.update_mahalanobis T
      let out := c2.compute_error T
      (({ st with vgicp_cuda := c2 }, step out T),
       acc.2 ++ [Event.updCorrespondences, Event.updMahalanobis, Event.evalError]))
    ((s, guess), [])

/-- The configuration re-propagation prologue of `computeTransformation`
(lines 114-117). -/
def propagateConfig (s : FastVGICPCuda) : FastVGICPCuda :=
  { s with vgicp_cuda :=
      (((s.vgicp_cuda.set_max_iterations s.max_iterations_).set_rotation_epsilon
          s.rotation_epsilon_).set_transformation_epsilon
          s.transformation_epsilon_).set_resolution s.voxel_resolution_ }

/-- `computeTransformation` (lines 112-120): push the currently configured
max iterations, rotation/transformation epsilons and voxel resolution down
to the backend, then delegate to the base-class optimization. -/
def FastVGICPCuda.computeTransformation (s : FastVGICPCuda)
    (step : LinearizationOut → Iso → Iso) (guess : Iso) :
    (FastVGICPCuda × Iso) × List Event :=
  let r := baseComputeTransformation step (propagateConfig s) guess
  (r.1, Event.setBackendConfig :: r.2)

/-- Modelled from the spec: configuration surface "number of correspondences
k" — the inherited setter (`setCorrespondenceRandomness`, not under src/)
records the value; per the §4.5 lifecycle, searches and covariances are run
at cloud assignment, so the setter itself recomputes nothing. -/
def FastVGICPCuda.setCorrespondenceRandomness (s : FastVGICPCuda) (k : Nat) :
    FastVGICPCuda × List Event :=
  ({ s with k_correspondences_ := k }, [])

/-- Modelled from the spec: configuration surface "max iterations" — the
inherited setter records the value. -/
def FastVGICPCuda.setMaximumIterations (s : FastVGICPCuda) (n : Nat) :
    FastVGICPCuda × List Event :=
  ({ s with max_iterations_ := n }, [])

/-- Modelled from the spec: configuration surface "voxel resolution" — the
inherited setter records the value. -/
def FastVGICPCuda.setResolution (s : FastVGICPCuda) (r : Int) :
    FastVGICPCuda × List Event :=
  ({ s with voxel_resolution_ := r }, [])

/-- The neighbor computation selected by the search mode, as stored by the
assignment pipeline (CPU: externally computed kd-tree result; GPU: the
backend's brute-force result over the uploaded points). -/
def searchNeighborsFor (m : NearestNeighborMethod) (k : Nat) (pts : List Pt) :
    List Nat :=
  match m with
  | NearestNeighborMethod.CPU_PARALLEL_KDTREE => find_neighbors_parallel_kdtree k pts
  | NearestNeighborMethod.GPU_BRUTEFORCE => gpuBruteforceNeighbors k pts

/-- The neighbor-search event of the source assignment pipeline. -/
def sourceSearchEvent (m : NearestNeighborMethod) : Event :=
  match m with
  | NearestNeighborMethod.CPU_PARALLEL_KDTREE => Event.cpuSearchSource
  | NearestNeighborMethod.GPU_BRUTEFORCE => Event.gpuSearchSource

/-- The full event trace of a (non-skipped) `setInputSource` call. -/
def sourceAssignTrace (m : NearestNeighborMethod) : List Event :=
  [Event.baseSetInputSource, Event.extractCoords, Event.setSourceCloud,
   sourceSearchEvent m, Event.calcSourceCovs, Event.getSourceCovs]

/-- The neighbor-search event of the target assignment pipeline. -/
def targetSearchEvent (m : NearestNeighborMethod) : Event :=
  match m with
  | NearestNeighborMethod.CPU_PARALLEL_KDTREE => Event.cpuSearchTarget
  | NearestNeighborMethod.GPU_BRUTEFORCE => Event.gpuSearchTarget

/-- The full event trace of a (non-skipped) `setInputTarget` call. -/
def targetAssignTrace (m : NearestNeighborMethod) : List Event :=
  [Event.baseSetInputTarget, Event.extractCoords, Event.setTargetCloud,
   targetSearchEvent m, Event.calcTargetCovs, Event.createTargetVoxelmap]

/-- The identity rigid transform. -/
def isoId : Iso := ⟨⟨1, 0, 0, 0, 1, 0, 0, 0, 1⟩, ⟨0, 0, 0⟩⟩


theorem length_insertBy (le : α → α → Bool) (a : α) (l : List α) :
    (insertBy le a l).length = l.length + 1 := by
  induction l with
  | nil => rfl
  | cons b bs ih => cases h : le a b <;> simp [insertBy, h, ih]

theorem length_sortBy (le : α → α → Bool) (l : List α) :
    (sortBy le l).length = l.length := by
  induction l with
  | nil => rfl
  | cons a as ih => rw [sortBy, length_insertBy, ih, List.length_cons]

theorem nearestKSearch_length (pts : List Pt) (q : Pt) (k : Nat) :
    (nearestKSearch pts q k).length = min k pts.length := by
  rw [nearestKSearch, List.length_map, List.length_take, length_sortBy,
    List.length_map, List.length_range]

theorem knnOf_length (pts : List Pt) (k i : Nat) :
    (knnOf pts k i).length = min k pts.length :=
  nearestKSearch_length pts _ k

/-- Pointwise characterization of the query loop: a position `j` of the
output buffer holds the corresponding query entry when some iteration in
`order` writes it, and the initial buffer content otherwise — independent of
the iteration order, because the write regions of distinct iterations are
disjoint. -/
theorem runQueries_char (pts : List Pt) (k : Nat) (order : List Nat)
    (buf : Nat → Nat) (j : Nat) :
    (order.foldl (fun b i => writeSlot k (knnOf pts k i) i b) buf) j =
      if ∃ i ∈ order, i * k ≤ j ∧ j < i * k + (knnOf pts k i).length
      then (knnOf pts k (j / k)).getD (j - j / k * k) 0
      else buf j := by
  induction order generalizing buf with
  | nil => simp
  | cons i rest ih =>
    rw [List.foldl_cons, ih]
    by_cases hrest : ∃ i' ∈ rest, i' * k ≤ j ∧ j < i' * k + (knnOf pts k i').length
    · rw [if_pos hrest]
      obtain ⟨i', hi', hcond⟩ := hrest
      rw [if_pos ⟨i', List.mem_cons_of_mem _ hi', hcond⟩]
    · rw [if_neg hrest]
      show writeSlot k (knnOf pts k i) i buf j = _
      rw [writeSlot]
      by_cases hi : i * k ≤ j ∧ j < i * k + (knnOf pts k i).length
      · rw [if_pos hi, if_pos ⟨i, List.mem_cons_self i rest, hi⟩]
        have hlen : (knnOf pts k i).length ≤ k := by
          rw [knnOf_length]; exact Nat.min_le_left _ _
        have hdiv : j / k = i :=
          Nat.div_eq_of_lt_le hi.1
            (by
              calc j < i * k + (knnOf pts k i).length := hi.2
                _ ≤ i * k + k := by omega
                _ = (i + 1) * k := by ring)
        rw [hdiv]
      · rw [if_neg hi]
        rw [if_neg (by
          rintro ⟨i', hmem, hcond⟩
          rcases List.mem_cons.1 hmem with h | h
          · exact hi (h ▸ hcond)
          · exact hrest ⟨i', h, hcond⟩)]

theorem runQueriesFun_perm (pts : List Pt) (k : Nat) (order : List Nat)
    (h : order.Perm (List.range pts.length)) :
    (List.range (pts.length * k)).map (runQueriesFun pts k order) =
      find_neighbors_parallel_kdtree k pts := by
  rw [find_neighbors_parallel_kdtree]
  apply List.map_congr_left
  intro j _
  rw [runQueriesFun, runQueriesFun, runQueries_char, runQueries_char]
  exact if_congr
    (by
      constructor
      · rintro ⟨i, hm, hc⟩; exact ⟨i, h.mem_iff.1 hm, hc⟩
      · rintro ⟨i, hm, hc⟩; exact ⟨i, h.mem_iff.2 hm, hc⟩)
    rfl rfl

theorem mapRange_getD (f : Nat → Nat) (N j d : Nat) :
    ((List.range N).map f).getD j d = if j < N then f j else d := by
  by_cases h : j < N
  · rw [if_pos h, List.getD_eq_getElem?_getD, List.getElem?_map,
      List.getElem?_range h]
    rfl
  · rw [if_neg h, List.getD_eq_getElem?_getD, List.getElem?_eq_none, Option.getD_none]
    rw [List.length_map, List.length_range]
    omega

/-- Query `i`'s output slot: position `i*k + m` of the returned vector holds
entry `m` of the kd-tree query for point `i` when that query returned more
than `m` indices, and the zero initialization otherwise. -/
theorem find_neighbors_slot (k : Nat) (pts : List Pt) (i m : Nat)
    (hi : i < pts.length) (hm : m < k) :
    (find_neighbors_parallel_kdtree k pts).getD (i * k + m) 0 =
      if m < (knnOf pts k i).length then (knnOf pts k i).getD m 0 else 0 := by
  have hk : 0 < k := by omega
  have hj : i * k + m < pts.length * k := by
    calc i * k + m < i * k + k := by omega
      _ = (i + 1) * k := by ring
      _ ≤ pts.length * k := Nat.mul_le_mul_right _ (by omega)
  rw [find_neighbors_parallel_kdtree, mapRange_getD, if_pos hj, runQueriesFun,
    runQueries_char]
  have hdiv : (i * k + m) / k = i := by
    rw [Nat.mul_comm i k, Nat.mul_add_div hk, Nat.div_eq_of_lt hm, Nat.add_zero]
  by_cases hcase : m < (knnOf pts k i).length
  · rw [if_pos hcase, if_pos ⟨i, List.mem_range.2 hi, by omega, by omega⟩, hdiv]
    have harg : i * k + m - i * k = m := by omega
    rw [harg]
  · rw [if_neg hcase]
    rw [if_neg (by
      rintro ⟨i', hmem, h1, h2⟩
      have hlen' : (knnOf pts k i').length ≤ k := by
        rw [knnOf_length]; exact Nat.min_le_left _ _
      have hdiv' : (i * k + m) / k = i' :=
        Nat.div_eq_of_lt_le h1
          (by
            calc i * k + m < i' * k + (knnOf pts k i').length := h2
              _ ≤ i' * k + k := by omega
              _ = (i' + 1) * k := by ring)
      have hii : i' = i := by rw [hdiv] at hdiv'; omega
      subst hii
      exact hcase (by omega))]

/-- C7: the CPU-parallel exact neighbor search is deterministic: the OpenMP
loop of `find_neighbors_parallel_kdtree` may execute its per-query iterations
in any order (each query writes only its own disjoint slot of the output
vector), and any two execution orders produce the same neighbor-index vector,
equal to the returned one. -/
theorem find_neighbors_parallel_kdtree_deterministic (pts : List Pt) (k : Nat)
    (o1 o2 : List Nat) (h1 : o1.Perm (List.range pts.length))
    (h2 : o2.Perm (List.range pts.length)) :
    (List.range (pts.length * k)).map (runQueriesFun pts k o1) =
      (List.range (pts.length * k)).map (runQueriesFun pts k o2) ∧
    (List.range (pts.length * k)).map (runQueriesFun pts k o1) =
      find_neighbors_parallel_kdtree k pts :=
  ⟨by rw [runQueriesFun_perm pts k o1 h1, runQueriesFun_perm pts k o2 h2],
   runQueriesFun_perm pts k o1 h1⟩

theorem find_neighbors_parallel_kdtree_deterministic_witness :
    ([2, 0, 1] : List Nat).Perm
        (List.range ([⟨0,0,0⟩, ⟨1,0,0⟩, ⟨5,0,0⟩] : List Pt).length) ∧
    ([1, 2, 0] : List Nat).Perm
        (List.range ([⟨0,0,0⟩, ⟨1,0,0⟩, ⟨5,0,0⟩] : List Pt).length) ∧
    (List.range (([⟨0,0,0⟩, ⟨1,0,0⟩, ⟨5,0,0⟩] : List Pt).length * 2)).map
        (runQueriesFun [⟨0,0,0⟩, ⟨1,0,0⟩, ⟨5,0,0⟩] 2 [2, 0, 1]) =
      find_neighbors_parallel_kdtree 2 [⟨0,0,0⟩, ⟨1,0,0⟩, ⟨5,0,0⟩] :=
  ⟨by decide, by decide,
   (find_neighbors_parallel_kdtree_deterministic [⟨0,0,0⟩, ⟨1,0,0⟩, ⟨5,0,0⟩] 2
      [2, 0, 1] [1, 2, 0] (by decide) (by decide)).2⟩

/-- C1 (amended): the search always returns a vector of exactly
`n * k` entries.  When the reference cloud holds at least `k` points, the
positions `i*k .. i*k+k-1` hold the `k` nearest-neighbor indices of query
point `i`.  When it holds fewer than `k` points, no error condition is
raised: each query yields only `n` indices, the remaining positions keep
their zero initialization, and the cloud assignment pipeline runs to
completion (nothing is surfaced to the caller). -/
theorem neighbor_search_slot_contract (k : Nat) (pts : List Pt) (i m : Nat)
    (hi : i < pts.length) (hm : m < k) :
    (find_neighbors_parallel_kdtree k pts).length = pts.length * k ∧
    (k ≤ pts.length →
      (knnOf pts k i).length = k ∧
      (find_neighbors_parallel_kdtree k pts).getD (i * k + m) 0 =
        (knnOf pts k i).getD m 0) ∧
    (pts.length < k →
      (knnOf pts k i).length = pts.length ∧
      (pts.length ≤ m →
        (find_neighbors_parallel_kdtree k pts).getD (i * k + m) 0 = 0)) ∧
    (∀ s : FastVGICPCuda, ∀ c : Cloud, c.pts = pts →
      sameInstance s.input_ c = false →
      (s.setInputSource c).1.input_ = some c ∧ (s.setInputSource c).2 ≠ []) := by
  refine ⟨?_, ?_, ?_, ?_⟩
  · rw [find_neighbors_parallel_kdtree, List.length_map, List.length_range]
  · intro hkn
    have hlen : (knnOf pts k i).length = k := by
      rw [knnOf_length]; exact Nat.min_eq_left hkn
    refine ⟨hlen, ?_⟩
    rw [find_neighbors_slot k pts i m hi hm, if_pos (by omega)]
  · intro hnk
    have hlen : (knnOf pts k i).length = pts.length := by
      rw [knnOf_length]; exact Nat.min_eq_right (Nat.le_of_lt hnk)
    refine ⟨hlen, fun hmn => ?_⟩
    rw [find_neighbors_slot k pts i m hi hm, if_neg (by omega)]
  · intro s c _ hsame
    cases hmeth : s.neighbor_search_method_ <;>
      simp [FastVGICPCuda.setInputSource, hsame, hmeth]

theorem neighbor_search_slot_contract_witness :
    (0 < ([⟨0,0,0⟩, ⟨3,0,0⟩] : List Pt).length ∧ 1 < 2 ∧
      2 ≤ ([⟨0,0,0⟩, ⟨3,0,0⟩] : List Pt).length) ∧
    (find_neighbors_parallel_kdtree 2 [⟨0,0,0⟩, ⟨3,0,0⟩]).length =
      ([⟨0,0,0⟩, ⟨3,0,0⟩] : List Pt).length * 2 ∧
    (knnOf [⟨0,0,0⟩, ⟨3,0,0⟩] 2 0).length = 2 ∧
    (find_neighbors_parallel_kdtree 2 [⟨0,0,0⟩, ⟨3,0,0⟩]).getD (0 * 2 + 1) 0 =
      (knnOf [⟨0,0,0⟩, ⟨3,0,0⟩] 2 0).getD 1 0 :=
  ⟨⟨by decide, by decide, by decide⟩,
   (neighbor_search_slot_contract 2 [⟨0,0,0⟩, ⟨3,0,0⟩] 0 1 (by decide)
      (by decide)).1,
   ((neighbor_search_slot_contract 2 [⟨0,0,0⟩, ⟨3,0,0⟩] 0 1 (by decide)
      (by decide)).2.1 (by decide)).1,
   ((neighbor_search_slot_contract 2 [⟨0,0,0⟩, ⟨3,0,0⟩] 0 1 (by decide)
      (by decide)).2.1 (by decide)).2⟩

/-- C1 fails as stated: a single-point cloud with k = 2 has fewer than k
reference points, yet nothing fatal is surfaced — query 0's kd-tree search
returns only one index, the returned vector is `[0, 0]` with position 1 mere
zero padding rather than a second nearest neighbor, and `setInputSource`
still runs the full assignment pipeline and stores the cloud. -/
theorem neighbor_search_insufficient_points_not_fatal :
    (knnOf [⟨0,0,0⟩] 2 0).length = 1 ∧
    find_neighbors_parallel_kdtree 2 [⟨0,0,0⟩] = [0, 0] ∧
    (({ FastVGICPCuda.construct with
        k_correspondences_ := 2 }.setInputSource ⟨7, [⟨0,0,0⟩]⟩).1.input_ =
      some ⟨7, [⟨0,0,0⟩]⟩ ∧
     ({ FastVGICPCuda.construct with
        k_correspondences_ := 2 }.setInputSource ⟨7, [⟨0,0,0⟩]⟩).2 ≠ []) := by
  decide

/-- C3: reassigning the cloud instance currently held as source
(respectively target) is a no-op decided by the pointer-identity check: the
adapter state is returned unchanged — no coordinate extraction, neighbor
search, covariance computation or voxel-map rebuild happens (the event trace
is empty). -/
theorem setInput_same_instance_noop (s : FastVGICPCuda) (c : Cloud) :
    (s.input_ = some c → s.setInputSource c = (s, [])) ∧
    (s.target_ = some c → s.setInputTarget c = (s, [])) := by
  constructor
  · intro h
    simp [FastVGICPCuda.setInputSource, sameInstance, h]
  · intro h
    simp [FastVGICPCuda.setInputTarget, sameInstance, h]

theorem setInput_same_instance_noop_witness :
    ({ FastVGICPCuda.construct with
        input_ := some ⟨3, [⟨0,0,0⟩]⟩
        target_ := some ⟨3, [⟨0,0,0⟩]⟩ } : FastVGICPCuda).input_ =
      some ⟨3, [⟨0,0,0⟩]⟩ ∧
    ({ FastVGICPCuda.construct with
        input_ := some ⟨3, [⟨0,0,0⟩]⟩
        target_ := some ⟨3, [⟨0,0,0⟩]⟩ } : FastVGICPCuda).setInputSource
        ⟨3, [⟨0,0,0⟩]⟩ =
      ({ FastVGICPCuda.construct with
          input_ := some ⟨3, [⟨0,0,0⟩]⟩
          target_ := some ⟨3, [⟨0,0,0⟩]⟩ }, []) ∧
    ({ FastVGICPCuda.construct with
        input_ := some ⟨3, [⟨0,0,0⟩]⟩
        target_ := some ⟨3, [⟨0,0,0⟩]⟩ } : FastVGICPCuda).setInputTarget
        ⟨3, [⟨0,0,0⟩]⟩ =
      ({ FastVGICPCuda.construct with
          input_ := some ⟨3, [⟨0,0,0⟩]⟩
          target_ := some ⟨3, [⟨0,0,0⟩]⟩ }, []) :=
  ⟨by decide,
   (setInput_same_instance_noop _ ⟨3, [⟨0,0,0⟩]⟩).1 (by decide),
   (setInput_same_instance_noop _ ⟨3, [⟨0,0,0⟩]⟩).2 (by decide)⟩

/-- C9: `setNearesetNeighborSearchMethod` only records the selected mode:
the result state is the input state with just the method field replaced
(cloud pointers, k, regularization, epsilons, resolution and the whole
backend — neighbor sets, covariances, voxel map — are untouched) and no
backend operation runs, so the mode can only take effect at the next cloud
assignment. -/
theorem setNearesetNeighborSearchMethod_frame (s : FastVGICPCuda)
    (m : NearestNeighborMethod) :
    s.setNearesetNeighborSearchMethod m =
      ({ s with neighbor_search_method_ := m }, []) ∧
    (s.setNearesetNeighborSearchMethod m).1.vgicp_cuda = s.vgicp_cuda ∧
    (s.setNearesetNeighborSearchMethod m).1.input_ = s.input_ ∧
    (s.setNearesetNeighborSearchMethod m).1.target_ = s.target_ ∧
    (s.setNearesetNeighborSearchMethod m).1.k_correspondences_ =
      s.k_correspondences_ :=
  ⟨rfl, rfl, rfl, rfl, rfl⟩

/-- C10: `clearSource` (respectively `clearTarget`) resets only the held
source (respectively target) pointer; the backend state is untouched and no
backend operation runs.  Afterwards the identity check no longer matches any
cloud, so a subsequent `setInputSource` — the previously-held pointer
included — runs the full assignment pipeline. -/
theorem clearSource_only_resets_pointer (s : FastVGICPCuda) (c : Cloud) :
    s.clearSource = ({ s with input_ := none }, []) ∧
    s.clearTarget = ({ s with target_ := none }, []) ∧
    (s.clearSource).1.vgicp_cuda = s.vgicp_cuda ∧
    (s.clearTarget).1.vgicp_cuda = s.vgicp_cuda ∧
    sameInstance (s.clearSource).1.input_ c = false ∧
    ((s.clearSource).1.setInputSource c).2 =
      sourceAssignTrace s.neighbor_search_method_ := by
  refine ⟨rfl, rfl, rfl, rfl, rfl, ?_⟩
  cases hmeth : s.neighbor_search_method_ <;>
    simp [FastVGICPCuda.clearSource, FastVGICPCuda.setInputSource, sameInstance,
      hmeth, sourceAssignTrace, sourceSearchEvent]

/-- C5: on a newly assigned cloud, `setInputSource` performs, in order:
base-class pointer store, coordinate extraction, upload, neighbor search for
the configured k correspondences, covariance estimation (with readback) —
and never rebuilds the voxel map.  `setInputTarget` performs the same steps
and rebuilds the target voxel map as its final step. -/
theorem setInput_pipeline_steps (s : FastVGICPCuda) (c : Cloud)
    (hs : sameInstance s.input_ c = false)
    (ht : sameInstance s.target_ c = false) :
    (s.setInputSource c).2 = sourceAssignTrace s.neighbor_search_method_ ∧
    Event.createTargetVoxelmap ∉ (s.setInputSource c).2 ∧
    (s.setInputSource c).1.vgicp_cuda.voxelmap = s.vgicp_cuda.voxelmap ∧
    (s.setInputSource c).1.vgicp_cuda.source_points = c.pts.map (fun p => p) ∧
    (s.setInputTarget c).2 = targetAssignTrace s.neighbor_search_method_ ∧
    (s.setInputTarget c).2.getLast? = some Event.createTargetVoxelmap ∧
    (s.setInputTarget c).1.vgicp_cuda.voxelmap =
      some (buildVoxelmap s.vgicp_cuda.resolution (c.pts.map (fun p => p))) := by
  cases hmeth : s.neighbor_search_method_ <;>
    simp [FastVGICPCuda.setInputSource, FastVGICPCuda.setInputTarget, hs, ht,
      hmeth, sourceAssignTrace, sourceSearchEvent, targetAssignTrace,
      targetSearchEvent, FastVGICPCudaCore.set_source_cloud,
      FastVGICPCudaCore.set_target_cloud, FastVGICPCudaCore.set_source_neighbors,
      FastVGICPCudaCore.set_target_neighbors,
      FastVGICPCudaCore.find_source_neighbors,
      FastVGICPCudaCore.find_target_neighbors,
      FastVGICPCudaCore.calculate_source_covariances,
      FastVGICPCudaCore.calculate_target_covariances,
      FastVGICPCudaCore.create_target_voxelmap]

theorem setInput_pipeline_steps_witness :
    sameInstance (FastVGICPCuda.construct).input_ ⟨1, [⟨0,0,0⟩]⟩ = false ∧
    sameInstance (FastVGICPCuda.construct).target_ ⟨1, [⟨0,0,0⟩]⟩ = false ∧
    ((FastVGICPCuda.construct.setInputSource ⟨1, [⟨0,0,0⟩]⟩).2 =
        sourceAssignTrace (FastVGICPCuda.construct).neighbor_search_method_ ∧
      (FastVGICPCuda.construct.setInputTarget ⟨1, [⟨0,0,0⟩]⟩).1.vgicp_cuda.voxelmap =
        some (buildVoxelmap (FastVGICPCuda.construct).vgicp_cuda.resolution
          (([⟨0,0,0⟩] : List Pt).map (fun p => p)))) :=
  ⟨by decide, by decide,
   ⟨(setInput_pipeline_steps FastVGICPCuda.construct ⟨1, [⟨0,0,0⟩]⟩ (by decide)
      (by decide)).1,
    (setInput_pipeline_steps FastVGICPCuda.construct ⟨1, [⟨0,0,0⟩]⟩ (by decide)
      (by decide)).2.2.2.2.2.2⟩⟩

/-- C4: with both sides assigned, `swapSourceAndTarget` exchanges the two
held cloud pointers and the backend exchanges its source/target buffers
symmetrically, with no recomputation (its only event is the backend swap);
calling it twice restores exactly the original adapter state, so the
correspondences and the error computed for any candidate transform are
identical to those before any swap. -/
theorem swapSourceAndTarget_involutive (s : FastVGICPCuda) (T : Iso)
    (_hs : s.input_.isSome) (_ht : s.target_.isSome) :
    ((s.swapSourceAndTarget).1.swapSourceAndTarget).1 = s ∧
    corrOf ((s.swapSourceAndTarget).1.swapSourceAndTarget).1.vgicp_cuda T =
      corrOf s.vgicp_cuda T ∧
    ((s.swapSourceAndTarget).1.swapSourceAndTarget).1.vgicp_cuda.compute_error T =
      s.vgicp_cuda.compute_error T ∧
    (s.swapSourceAndTarget).1.input_ = s.target_ ∧
    (s.swapSourceAndTarget).1.target_ = s.input_ ∧
    (s.swapSourceAndTarget).1.vgicp_cuda.source_points =
      s.vgicp_cuda.target_points ∧
    (s.swapSourceAndTarget).1.vgicp_cuda.target_points =
      s.vgicp_cuda.source_points ∧
    (s.swapSourceAndTarget).1.vgicp_cuda.source_covs = s.vgicp_cuda.target_covs ∧
    (s.swapSourceAndTarget).1.vgicp_cuda.source_neighbors =
      s.vgicp_cuda.target_neighbors ∧
    (s.swapSourceAndTarget).2 = [Event.swapBackend] :=
  ⟨rfl, rfl, rfl, rfl, rfl, rfl, rfl, rfl, rfl, rfl⟩

theorem swapSourceAndTarget_involutive_witness :
    (({ FastVGICPCuda.construct with
        input_ := some ⟨1, [⟨0,0,0⟩]⟩
        target_ := some ⟨2, [⟨4,0,0⟩]⟩ } : FastVGICPCuda).input_.isSome ∧
      ({ FastVGICPCuda.construct with
        input_ := some ⟨1, [⟨0,0,0⟩]⟩
        target_ := some ⟨2, [⟨4,0,0⟩]⟩ } : FastVGICPCuda).target_.isSome) ∧
    ((({ FastVGICPCuda.construct with
        input_ := some ⟨1, [⟨0,0,0⟩]⟩
        target_ := some ⟨2, [⟨4,0,0⟩]⟩ } : FastVGICPCuda).swapSourceAndTarget).1.swapSourceAndTarget).1 =
      { FastVGICPCuda.construct with
        input_ := some ⟨1, [⟨0,0,0⟩]⟩
        target_ := some ⟨2, [⟨4,0,0⟩]⟩ } :=
  ⟨⟨by decide, by decide⟩,
   (swapSourceAndTarget_involutive
      { FastVGICPCuda.construct with
        input_ := some ⟨1, [⟨0,0,0⟩]⟩
        target_ := some ⟨2, [⟨4,0,0⟩]⟩ } isoId (by decide) (by decide)).1⟩

/-- C6: `compute_error` is a `const` delegation with no side effects: it
returns the backend's (error, H, b) for the candidate transform and the
adapter state — correspondence buffer, covariances, voxel map and all
configuration included — is passed through unchanged. -/
theorem compute_error_no_side_effects (s : FastVGICPCuda) (T : Iso) :
    (s.compute_error T).1.2 = s ∧
    (s.compute_error T).1.1 = s.vgicp_cuda.compute_error T ∧
    (s.compute_error T).1.2.vgicp_cuda.correspondences =
      s.vgicp_cuda.correspondences ∧
    (s.compute_error T).1.2.vgicp_cuda.source_covs = s.vgicp_cuda.source_covs ∧
    (s.compute_error T).1.2.vgicp_cuda.voxelmap = s.vgicp_cuda.voxelmap ∧
    (s.compute_error T).1.2.vgicp_cuda.resolution = s.vgicp_cuda.resolution :=
  ⟨rfl, rfl, rfl, rfl, rfl, rfl⟩

/-- The optimization loop never touches the backend configuration: the four
configuration fields of the backend after `baseComputeTransformation` are
those it started with. -/
theorem baseCompute_config_invariant (step : LinearizationOut → Iso → Iso)
    (l : List Nat) (acc : (FastVGICPCuda × Iso) × List Event) :
    ((l.foldl
        (fun acc _ =>
          let st := acc.1.1
          let T := acc.1.2
          let c1 := st.vgicp_cuda.update_correspondences T
          let c2 := c1.update_mahalanobis T
          let out := c2.compute_error T
          (({ st with vgicp_cuda := c2 }, step out T),
           acc.2 ++ [Event.updCorrespondences, Event.updMahalanobis,
             Event.evalError]))
        acc).1.1.vgicp_cuda.max_iterations = acc.1.1.vgicp_cuda.max_iterations ∧
     (l.foldl
        (fun acc _ =>
          let st := acc.1.1
          let T := acc.1.2
          let c1 := st.vgicp_cuda.update_correspondences T
          let c2 := c1.update_mahalanobis T
          let out := c2.compute_error T
          (({ st with vgicp_cuda := c2 }, step out T),
           acc.2 ++ [Event.updCorrespondences, Event.updMahalanobis,
             Event.evalError]))
        acc).1.1.vgicp_cuda.rotation_epsilon = acc.1.1.vgicp_cuda.rotation_epsilon ∧
     (l.foldl
        (fun acc _ =>
          let st := acc.1.1
          let T := acc.1.2
          let c1 := st.vgicp_cuda.update_correspondences T
          let c2 := c1.update_mahalanobis T
          let out := c2.compute_error T
          (({ st with vgicp_cuda := c2 }, step out T),
           acc.2 ++ [Event.updCorrespondences, Event.updMahalanobis,
             Event.evalError]))
        acc).1.1.vgicp_cuda.transformation_epsilon =
       acc.1.1.vgicp_cuda.transformation_epsilon ∧
     (l.foldl
        (fun acc _ =>
          let st := acc.1.1
          let T := acc.1.2
          let c1 := st.vgicp_cuda.update_correspondences T
          let c2 := c1.update_mahalanobis T
          let out := c2.compute_error T
          (({ st with vgicp_cuda := c2 }, step out T),
           acc.2 ++ [Event.updCorrespondences, Event.updMahalanobis,
             Event.evalError]))
        acc).1.1.vgicp_cuda.resolution = acc.1.1.vgicp_cuda.resolution) := by
  induction l generalizing acc with
  | nil => exact ⟨rfl, rfl, rfl, rfl⟩
  | cons x xs ih =>
    rw [List.foldl_cons]
    exact ⟨(ih _).1.trans rfl, (ih _).2.1.trans rfl, (ih _).2.2.1.trans rfl,
      (ih _).2.2.2.trans rfl⟩

/-- C8: `computeTransformation` first re-propagates the currently configured
max iterations, rotation epsilon, transformation epsilon and voxel
resolution to the backend (its first event), then delegates to the
base-class optimization; the optimization loop leaves configuration alone,
so the run executes with the configuration current at call time — changes
made after cloud assignment take effect. -/
theorem computeTransformation_repropagates_config (s : FastVGICPCuda)
    (step : LinearizationOut → Iso → Iso) (guess : Iso) :
    s.computeTransformation step guess =
      ((baseComputeTransformation step (propagateConfig s) guess).1,
       Event.setBackendConfig ::
         (baseComputeTransformation step (propagateConfig s) guess).2) ∧
    (propagateConfig s).vgicp_cuda.max_iterations = s.max_iterations_ ∧
    (propagateConfig s).vgicp_cuda.rotation_epsilon = s.rotation_epsilon_ ∧
    (propagateConfig s).vgicp_cuda.transformation_epsilon =
      s.transformation_epsilon_ ∧
    (propagateConfig s).vgicp_cuda.resolution = s.voxel_resolution_ ∧
    (s.computeTransformation step guess).1.1.vgicp_cuda.max_iterations =
      s.max_iterations_ ∧
    (s.computeTransformation step guess).1.1.vgicp_cuda.rotation_epsilon =
      s.rotation_epsilon_ ∧
    (s.computeTransformation step guess).1.1.vgicp_cuda.transformation_epsilon =
      s.transformation_epsilon_ ∧
    (s.computeTransformation step guess).1.1.vgicp_cuda.resolution =
      s.voxel_resolution_ := by
  refine ⟨rfl, rfl, rfl, rfl, rfl, ?_, ?_, ?_, ?_⟩
  · exact (baseCompute_config_invariant step (List.range s.max_iterations_)
      ((propagateConfig s, guess), [])).1.trans rfl
  · exact (baseCompute_config_invariant step (List.range s.max_iterations_)
      ((propagateConfig s, guess), [])).2.1.trans rfl
  · exact (baseCompute_config_invariant step (List.range s.max_iterations_)
      ((propagateConfig s, guess), [])).2.2.1.trans rfl
  · exact (baseCompute_config_invariant step (List.range s.max_iterations_)
      ((propagateConfig s, guess), [])).2.2.2.trans rfl

/-- C2 (amended): the Neighbor Set stored in the backend is recomputed at
cloud assignment, with the k and the search strategy configured at that
moment; changing k or the strategy alone recomputes nothing — the backend
(neighbor sets, covariances, voxel map included) is untouched and the new
settings only take effect at the next cloud assignment. -/
theorem neighbor_set_recomputed_on_assignment (s : FastVGICPCuda) (c : Cloud)
    (m : NearestNeighborMethod) (k : Nat)
    (hs : sameInstance s.input_ c = false) :
    (s.setInputSource c).1.vgicp_cuda.source_neighbors =
      some (s.k_correspondences_,
        searchNeighborsFor s.neighbor_search_method_ s.k_correspondences_
          (c.pts.map (fun p => p))) ∧
    (s.setNearesetNeighborSearchMethod m).1.vgicp_cuda = s.vgicp_cuda ∧
    (s.setNearesetNeighborSearchMethod m).2 = [] ∧
    (s.setCorrespondenceRandomness k).1.vgicp_cuda = s.vgicp_cuda ∧
    (s.setCorrespondenceRandomness k).2 = [] := by
  refine ⟨?_, rfl, rfl, rfl, rfl⟩
  cases hmeth : s.neighbor_search_method_ <;>
    simp [FastVGICPCuda.setInputSource, hs, hmeth, searchNeighborsFor,
      FastVGICPCudaCore.set_source_cloud, FastVGICPCudaCore.set_source_neighbors,
      FastVGICPCudaCore.find_source_neighbors,
      FastVGICPCudaCore.calculate_source_covariances]

theorem neighbor_set_recomputed_on_assignment_witness :
    sameInstance (FastVGICPCuda.construct).input_ ⟨1, [⟨0,0,0⟩]⟩ = false ∧
    (FastVGICPCuda.construct.setInputSource ⟨1, [⟨0,0,0⟩]⟩).1.vgicp_cuda.source_neighbors =
      some ((FastVGICPCuda.construct).k_correspondences_,
        searchNeighborsFor (FastVGICPCuda.construct).neighbor_search_method_
          (FastVGICPCuda.construct).k_correspondences_
          (([⟨0,0,0⟩] : List Pt).map (fun p => p))) :=
  ⟨by decide,
   (neighbor_set_recomputed_on_assignment FastVGICPCuda.construct ⟨1, [⟨0,0,0⟩]⟩
      NearestNeighborMethod.GPU_BRUTEFORCE 3 (by decide)).1⟩

/-- C2 fails as stated: assign a source cloud with k = 2, then raise k to 3
and switch the strategy to GPU brute force.  The backend is bit-for-bit
unchanged — the stored Neighbor Set still has arity 2, not the current k =
3, and neither setter performs any backend operation — so the neighbor set
is not recomputed when k or the strategy changes; it only happens at the
next cloud assignment. -/
theorem neighbor_set_stale_after_config_change :
    (let s1 := ({ FastVGICPCuda.construct with
        k_correspondences_ := 2 }.setInputSource ⟨1, [⟨0,0,0⟩, ⟨3,0,0⟩]⟩).1
     let s2 := (s1.setCorrespondenceRandomness 3).1
     let s3 := (s2.setNearesetNeighborSearchMethod
        NearestNeighborMethod.GPU_BRUTEFORCE).1
     s3.k_correspondences_ = 3 ∧
     s3.neighbor_search_method_ = NearestNeighborMethod.GPU_BRUTEFORCE ∧
     s3.vgicp_cuda = s1.vgicp_cuda ∧
     s3.vgicp_cuda.source_neighbors.map Prod.fst = some 2 ∧
     (s2.setNearesetNeighborSearchMethod
        NearestNeighborMethod.GPU_BRUTEFORCE).2 = [] ∧
     (s1.setCorrespondenceRandomness 3).2 = []) := by
  decide
